import Mathlib

/-!
Shallow embedding of the SEO meta-tag analysis engine of
`src/server/index.ts` (seo-meta-analyzer).

The HTML document is abstracted by the record of raw extracted values
(`Doc`): the cheerio selector layer (`$('title').first().text()`,
`$('meta[name=...]').attr('content')`, ...) always yields, for each of the
fourteen tags the engine reads, either a string or nothing, and those
values are the only thing the engine looks at.  The WHATWG `URL` runtime
class is modelled by `Url` / `parseUrl` / `resolveUrl` below, a simplified
but executable parser covering hierarchical `scheme://host/path` URLs
(ports, userinfo, query/fragment splitting, input trimming and
percent-encoding are not modelled; opaque non-special schemes are treated
as unparseable).  JavaScript string `.length` (UTF-16 code units) is
modelled by codepoint count, which agrees on all strings appearing here.
`Math.round(sum / n)` on the small non-negative integer sums the engine
produces is exact round-half-up rational rounding, modelled by
`roundHalfUp`.  A thrown exception is modelled by `Option`: `none` is a
throw, so `analyzeDocument` returns `Option SeoAnalysis`.  The ambient
clock read `new Date().toISOString()` is passed in as the explicit
`fetchedAt` argument.
-/

namespace SeoMeta

/-- Models the `TagStatus` union `'ok' | 'warning' | 'error'` of
`src/shared/analysis-types.ts`. -/
inductive TagStatus where
  | ok
  | warning
  | error
deriving DecidableEq

/-- Models the `SectionId` union `'meta' | 'openGraph' | 'twitter'`. -/
inductive SectionId where
  | meta
  | openGraph
  | twitter
deriving DecidableEq

/-- Serialization of a `SectionId` as it appears inside template strings
such as the issue id `${section.id}-${tag.tag}`. -/
def SectionId.key : SectionId → String
  | .meta => "meta"
  | .openGraph => "openGraph"
  | .twitter => "twitter"

/-- Models the `TagResult` interface.  `value` and `length` are the two
optional fields; `recommendation` is set by every constructor site in the
source, so it is kept as a plain string. -/
structure TagResult where
  tag : String
  label : String
  value : Option String := none
  status : TagStatus
  score : Nat
  length : Option Nat := none
  message : String
  recommendation : String
deriving DecidableEq

/-- Models the `SectionResult` interface. -/
structure SectionResult where
  id : SectionId
  label : String
  status : TagStatus
  score : Nat
  tags : List TagResult
deriving DecidableEq

/-- Models the `SeoIssue` interface. -/
structure SeoIssue where
  id : String
  tag : String
  «section» : SectionId
  severity : TagStatus
  message : String
  recommendation : String
deriving DecidableEq

/-- Models the `SearchPreview` interface. -/
structure SearchPreview where
  title : String
  description : String
  url : String
  domain : String
deriving DecidableEq

/-- Models the `SocialPreview` interface (`image` is optional). -/
structure SocialPreview where
  title : String
  description : String
  image : Option String := none
  url : String
  siteName : String
deriving DecidableEq

/-- Models the `TwitterPreview` interface (`SocialPreview` plus `card`). -/
structure TwitterPreview where
  title : String
  description : String
  image : Option String := none
  url : String
  siteName : String
  card : String
deriving DecidableEq

/-- Models the `SeoPreviews` interface. -/
structure SeoPreviews where
  google : SearchPreview
  openGraph : SocialPreview
  twitter : TwitterPreview
deriving DecidableEq

/-- Models `Record<SectionId, number>` used for `summary.sectionScores`. -/
structure SectionScores where
  meta : Nat
  openGraph : Nat
  twitter : Nat
deriving DecidableEq

/-- Models the `SeoSummary` interface. -/
structure SeoSummary where
  overallScore : Nat
  status : TagStatus
  sectionScores : SectionScores
deriving DecidableEq

/-- Models the `SeoAnalysis` interface. -/
structure SeoAnalysis where
  url : String
  finalUrl : String
  fetchedAt : String
  summary : SeoSummary
  sections : List SectionResult
  issues : List SeoIssue
  missing : List String
  previews : SeoPreviews
deriving DecidableEq

/-- Abstraction of the parsed HTML document: the raw value each selector
of `evaluateMetaSection` / `evaluateOpenGraphSection` /
`evaluateTwitterSection` extracts.  `titleText` models
`$('title').first().text()` (the empty string when there is no title
element); every other field models `.attr(...)` and is `none` when the
tag or attribute is absent. -/
structure Doc where
  titleText : String := ""
  description : Option String := none
  keywords : Option String := none
  canonicalHref : Option String := none
  robots : Option String := none
  ogTitle : Option String := none
  ogDescription : Option String := none
  ogImage : Option String := none
  ogUrl : Option String := none
  ogType : Option String := none
  twitterCard : Option String := none
  twitterTitle : Option String := none
  twitterDescription : Option String := none
  twitterImage : Option String := none
deriving DecidableEq

/-! ### URL model -/

/-- Simplified model of a parsed WHATWG URL: hierarchical
`scheme://host/path` only. -/
structure Url where
  scheme : String
  host : String
  path : String
deriving DecidableEq

/-- Characters accepted in the scheme component of the model. -/
def isSchemeChar (c : Char) : Bool := c.isAlpha

/-- Characters accepted in the host component of the model: anything but
a slash, a colon or a space (a space in the host is what makes
`new URL('http://exa mple.com')` throw). -/
def isHostChar (c : Char) : Bool := c != '/' && c != ':' && c != ' '

/-- Splits a character list at the first occurrence of `sep`,
returning the parts before and after it. -/
def splitAtChar (sep : Char) : List Char → Option (List Char × List Char)
  | [] => none
  | c :: cs =>
    if c = sep then some ([], cs)
    else (splitAtChar sep cs).map (fun p => (c :: p.1, p.2))

/-- Parses an absolute URL of the form `scheme://host/path`.  Models a
successful `new URL(input)` (no base); `none` models the constructor
throwing. -/
def parseAbsList (l : List Char) : Option Url :=
  match splitAtChar ':' l with
  | none => none
  | some (sch, rest) =>
    if sch ≠ [] ∧ sch.all isSchemeChar then
      match rest with
      | '/' :: '/' :: hp =>
        match splitAtChar '/' hp with
        | none =>
          if hp ≠ [] ∧ hp.all isHostChar then
            some ⟨String.mk sch, String.mk hp, "/"⟩
          else none
        | some (host, pathRest) =>
          if host ≠ [] ∧ host.all isHostChar then
            some ⟨String.mk sch, String.mk host, String.mk ('/' :: pathRest)⟩
          else none
      | _ => none
    else none

/-- Models `new URL(value)` wrapped in try/catch (`safeUrl` in the
source returns `undefined` on a parse failure). -/
def safeUrl (value : String) : Option Url := parseAbsList value.data

/-- Models `url.toString()` on the `Url` model. -/
def Url.toString (u : Url) : String := u.scheme ++ "://" ++ u.host ++ u.path

/-- Models `new URL(value, base)`: an input carrying a scheme must parse
absolutely (`new URL('https://', base)` throws rather than falling back),
anything else is resolved against the base. -/
def resolveUrl (value : String) (base : Url) : Option Url :=
  if value.data.contains ':' then parseAbsList value.data
  else
    some { base with
           path := if value.data.head? = some '/' then value
                   else String.mk ('/' :: value.data) }

/-- Models `resolveMaybeUrl(value, baseUrl)` of the source: `undefined`
(and the falsy empty string) stays absent, otherwise the value is
resolved against the base and serialized, with a parse failure mapped to
`undefined`. -/
def resolveMaybeUrl (value : Option String) (base : Url) : Option String :=
  match value with
  | none => none
  | some v => if v = "" then none else (resolveUrl v base).map Url.toString

/-- ASCII whitespace stripped by the model of
`String.prototype.trim()`. -/
def isSpaceChar (c : Char) : Bool :=
  c = ' ' || c = '\t' || c = '\n' || c = '\r'

/-- Trims leading and trailing whitespace from a character list. -/
def trimList (l : List Char) : List Char :=
  ((l.dropWhile isSpaceChar).reverse.dropWhile isSpaceChar).reverse

/-- Models `value.trim()` (ASCII whitespace subset). -/
def trimStr (s : String) : String := String.mk (trimList s.data)

/-- Models `value.toLowerCase()` (codepoint-wise lowering). -/
def toLowerStr (s : String) : String := String.mk (s.data.map Char.toLower)

/-- Models `value.split(',')` at the character level. -/
def splitOnComma : List Char → List (List Char)
  | [] => [[]]
  | c :: cs =>
    match splitOnComma cs with
    | [] => [[]]
    | part :: parts =>
      if c = ',' then [] :: part :: parts else (c :: part) :: parts

/-- Models `haystack.includes(needle)` at the character level. -/
def hasSubstr (sub : List Char) : List Char → Bool
  | [] => sub.isEmpty
  | c :: cs => sub.isPrefixOf (c :: cs) || hasSubstr sub cs

/-- Models `normalizeText`: absent or falsy input stays absent, otherwise
the value is trimmed and an all-whitespace result is treated as absent. -/
def normalizeText (value : Option String) : Option String :=
  match value with
  | none => none
  | some s =>
    if s = "" then none
    else
      let trimmed := trimStr s
      if trimmed.length ≠ 0 then some trimmed else none

/-- Models `getCanonical`: the raw `link[rel="canonical"]` href resolved
against the base URL (note: resolved before any evaluator runs). -/
def getCanonical (doc : Doc) (baseUrl : Url) : Option String :=
  resolveMaybeUrl doc.canonicalHref baseUrl

/-! ### Tag evaluators -/

/-- Models `createMissingTag(tag, label, critical, recommendation)`. -/
def createMissingTag (tag label : String) (critical : Bool)
    (recommendation : String) : TagResult :=
  { tag := tag
    label := label
    status := if critical then .error else .warning
    score := if critical then 0 else 50
    message := label ++ " not found."
    recommendation := recommendation }

/-- Models `evaluateTitle(value)`.  The JS guard `if (!value)` is true
for `undefined` and for the empty string. -/
def evaluateTitle (value : Option String) : TagResult :=
  match value with
  | none =>
    createMissingTag "title" "Title" true
      "Add a unique, descriptive title (50–60 characters)."
  | some v =>
    if v = "" then
      createMissingTag "title" "Title" true
        "Add a unique, descriptive title (50–60 characters)."
    else
      let length := v.length
      if length < 30 ∨ length > 70 then
        { tag := "title"
          label := "Title"
          value := some v
          length := some length
          status := .warning
          score := 60
          message := "Title length is " ++ toString length ++
            " characters — aim for 50–60."
          recommendation :=
            "Keep the primary query and brand within a 50–60 character window." }
      else
        { tag := "title"
          label := "Title"
          value := some v
          length := some length
          status := .ok
          score := 95
          message := "Title length looks good."
          recommendation :=
            "Review it periodically to stay aligned with the page intent." }

/-- Models `evaluateDescription(value)`. -/
def evaluateDescription (value : Option String) : TagResult :=
  match value with
  | none =>
    createMissingTag "meta[name=\"description\"]" "Meta Description" true
      "Provide a meta description (70–160 characters)."
  | some v =>
    if v = "" then
      createMissingTag "meta[name=\"description\"]" "Meta Description" true
        "Provide a meta description (70–160 characters)."
    else
      let length := v.length
      if length < 70 ∨ length > 160 then
        { tag := "meta[name=\"description\"]"
          label := "Meta Description"
          value := some v
          length := some length
          status := .warning
          score := 60
          message := "Description has " ++ toString length ++
            " characters — aim for 70–160."
          recommendation :=
            "Highlight the value proposition and CTA within 70–160 characters." }
      else
        { tag := "meta[name=\"description\"]"
          label := "Meta Description"
          value := some v
          length := some length
          status := .ok
          score := 95
          message := "Meta description length is optimal."
          recommendation :=
            "Keep the snippet accurate and aligned with the page content." }

/-- Models `evaluateKeywords(value)`: the comma-split, trimmed, non-empty
keyword items. -/
def keywordItems (v : String) : List String :=
  (((splitOnComma v.data).map (fun part => trimStr (String.mk part))).filter
    (fun item => item ≠ ""))

/-- Models `evaluateKeywords(value)`. -/
def evaluateKeywords (value : Option String) : TagResult :=
  match value with
  | none =>
    { tag := "meta[name=\"keywords\"]"
      label := "Meta Keywords"
      status := .warning
      score := 50
      message := "Keywords tag is missing — search engines largely ignore it."
      recommendation :=
        "Optional, but ensure important queries appear naturally in the content." }
  | some v =>
    if v = "" then
      { tag := "meta[name=\"keywords\"]"
        label := "Meta Keywords"
        status := .warning
        score := 50
        message := "Keywords tag is missing — search engines largely ignore it."
        recommendation :=
          "Optional, but ensure important queries appear naturally in the content." }
    else
      let keywords := keywordItems v
      if keywords.length > 10 then
        { tag := "meta[name=\"keywords\"]"
          label := "Meta Keywords"
          value := some v
          status := .warning
          score := 55
          message := "Too many keywords listed (" ++
            toString keywords.length ++ ")."
          recommendation := "Limit the list to 5–10 relevant phrases." }
      else
        { tag := "meta[name=\"keywords\"]"
          label := "Meta Keywords"
          value := some v
          status := .ok
          score := 80
          message := "Keywords are present but offer limited SEO value."
          recommendation := "Avoid keyword stuffing — keep phrasing natural." }

/-- Models `evaluateCanonical(value, baseUrl)`.  Note the argument it
receives from `evaluateMetaSection` is `getCanonical($, baseUrl)`, i.e.
already resolved against the base. -/
def evaluateCanonical (value : Option String) (baseUrl : Url) : TagResult :=
  match value with
  | none =>
    createMissingTag "link[rel=\"canonical\"]" "Canonical" false
      "Set a canonical URL to protect against duplicates, especially with URL parameters."
  | some v =>
    if v = "" then
      createMissingTag "link[rel=\"canonical\"]" "Canonical" false
        "Set a canonical URL to protect against duplicates, especially with URL parameters."
    else
      match resolveMaybeUrl (some v) baseUrl with
      | none =>
        { tag := "link[rel=\"canonical\"]"
          label := "Canonical"
          value := some v
          status := .error
          score := 10
          message := "Canonical contains an invalid URL."
          recommendation :=
            "Use an absolute URL without parameters and prefer https." }
      | some resolved =>
        if resolved = "" then
          { tag := "link[rel=\"canonical\"]"
            label := "Canonical"
            value := some v
            status := .error
            score := 10
            message := "Canonical contains an invalid URL."
            recommendation :=
              "Use an absolute URL without parameters and prefer https." }
        else
          match safeUrl resolved with
          | none =>
            { tag := "link[rel=\"canonical\"]"
              label := "Canonical"
              value := some v
              status := .error
              score := 10
              message := "Unable to parse the canonical URL."
              recommendation :=
                "Ensure the link is valid and uses the https:// scheme." }
          | some canonicalUrl =>
            { tag := "link[rel=\"canonical\"]"
              label := "Canonical"
              value := some canonicalUrl.toString
              status := .ok
              score := 90
              message := "Canonical tag is defined and valid."
              recommendation := "Confirm it matches the primary page URL." }

/-- Models `evaluateRobots(value)`. -/
def evaluateRobots (value : Option String) : TagResult :=
  match value with
  | none =>
    { tag := "meta[name=\"robots\"]"
      label := "Meta Robots"
      status := .warning
      score := 60
      message := "Meta robots tag is missing — pages are indexable by default."
      recommendation :=
        "Add meta robots if you need to restrict indexing or link following." }
  | some v =>
    if v = "" then
      { tag := "meta[name=\"robots\"]"
        label := "Meta Robots"
        status := .warning
        score := 60
        message := "Meta robots tag is missing — pages are indexable by default."
        recommendation :=
          "Add meta robots if you need to restrict indexing or link following." }
    else
      let content := toLowerStr v
      if hasSubstr "noindex".data content.data ∨
          hasSubstr "nofollow".data content.data then
        { tag := "meta[name=\"robots\"]"
          label := "Meta Robots"
          value := some v
          status := .warning
          score := 40
          message := "Directives detected: " ++ v ++ "."
          recommendation := "Ensure noindex/nofollow values are intentional." }
      else
        { tag := "meta[name=\"robots\"]"
          label := "Meta Robots"
          value := some v
          status := .ok
          score := 85
          message := "Meta robots allows indexing."
          recommendation :=
            "Review robots directives whenever you publish new content." }

/-- Models `evaluateOpenGraphTitle(value)`. -/
def evaluateOpenGraphTitle (value : Option String) : TagResult :=
  match value with
  | none =>
    createMissingTag "meta[property=\"og:title\"]" "OG Title" true
      "Provide og:title to craft an engaging social preview."
  | some v =>
    if v = "" then
      createMissingTag "meta[property=\"og:title\"]" "OG Title" true
        "Provide og:title to craft an engaging social preview."
    else
      let length := v.length
      if length < 30 ∨ length > 95 then
        { tag := "meta[property=\"og:title\"]"
          label := "OG Title"
          value := some v
          length := some length
          status := .warning
          score := 60
          message := "og:title is " ++ toString length ++
            " characters — aim for 40–80."
          recommendation :=
            "Make the headline punchy and readable within 40–80 characters." }
      else
        { tag := "meta[property=\"og:title\"]"
          label := "OG Title"
          value := some v
          length := some length
          status := .ok
          score := 95
          message := "og:title looks good."
          recommendation :=
            "Keep it aligned with the core message of the page." }

/-- Models `evaluateOpenGraphDescription(value)`. -/
def evaluateOpenGraphDescription (value : Option String) : TagResult :=
  match value with
  | none =>
    createMissingTag "meta[property=\"og:description\"]" "OG Description" true
      "Add og:description (80–200 characters) for social previews."
  | some v =>
    if v = "" then
      createMissingTag "meta[property=\"og:description\"]" "OG Description" true
        "Add og:description (80–200 characters) for social previews."
    else
      let length := v.length
      if length < 80 ∨ length > 200 then
        { tag := "meta[property=\"og:description\"]"
          label := "OG Description"
          value := some v
          length := some length
          status := .warning
          score := 60
          message := "og:description is " ++ toString length ++
            " characters — target 80–200."
          recommendation :=
            "Explain the value and include a CTA within 80–200 characters." }
      else
        { tag := "meta[property=\"og:description\"]"
          label := "OG Description"
          value := some v
          length := some length
          status := .ok
          score := 90
          message := "og:description is in good shape."
          recommendation :=
            "Validate the snippet via the Facebook Sharing Debugger." }

/-- Models `evaluateOpenGraphImage(value, baseUrl)`.  Unlike `og:url`
and `twitter:image`, the raw extracted value is passed here, so the
invalid-URL error branch is reachable. -/
def evaluateOpenGraphImage (value : Option String) (baseUrl : Url) : TagResult :=
  match value with
  | none =>
    createMissingTag "meta[property=\"og:image\"]" "OG Image" true
      "Add og:image (minimum 1200×630 px) for rich previews."
  | some v =>
    if v = "" then
      createMissingTag "meta[property=\"og:image\"]" "OG Image" true
        "Add og:image (minimum 1200×630 px) for rich previews."
    else
      match resolveMaybeUrl (some v) baseUrl with
      | none =>
        { tag := "meta[property=\"og:image\"]"
          label := "OG Image"
          value := some v
          status := .error
          score := 10
          message := "Invalid URL in og:image."
          recommendation := "Use an absolute https link to the image asset." }
      | some resolved =>
        if resolved = "" then
          { tag := "meta[property=\"og:image\"]"
            label := "OG Image"
            value := some v
            status := .error
            score := 10
            message := "Invalid URL in og:image."
            recommendation := "Use an absolute https link to the image asset." }
        else
          { tag := "meta[property=\"og:image\"]"
            label := "OG Image"
            value := some resolved
            status := .ok
            score := 95
            message := "og:image is set."
            recommendation :=
              "Ensure it is at least 1200×630 px in JPEG or WebP format." }

/-- Models `evaluateOptionalUrl(tag, label, value)` (used for `og:url`
after resolution).  It never yields an error status. -/
def evaluateOptionalUrl (tag label : String) (value : Option String) : TagResult :=
  match value with
  | none =>
    { tag := tag
      label := label
      status := .warning
      score := 55
      message := label ++ " is missing."
      recommendation :=
        "Add the " ++ toLowerStr label ++ " to keep metadata consistent." }
  | some v =>
    if v = "" then
      { tag := tag
        label := label
        status := .warning
        score := 55
        message := label ++ " is missing."
        recommendation :=
          "Add the " ++ toLowerStr label ++ " to keep metadata consistent." }
    else
      { tag := tag
        label := label
        value := some v
        status := .ok
        score := 85
        message := label ++ " is set."
        recommendation :=
          "Make sure the " ++ toLowerStr label ++ " matches the canonical URL." }

/-- Models `evaluateOpenGraphType(value)`. -/
def evaluateOpenGraphType (value : Option String) : TagResult :=
  match value with
  | none =>
    { tag := "meta[property=\"og:type\"]"
      label := "OG Type"
      status := .warning
      score := 55
      message := "OG type is missing."
      recommendation := "Set a type such as website, article, or product." }
  | some v =>
    if v = "" then
      { tag := "meta[property=\"og:type\"]"
        label := "OG Type"
        status := .warning
        score := 55
        message := "OG type is missing."
        recommendation := "Set a type such as website, article, or product." }
    else
      { tag := "meta[property=\"og:type\"]"
        label := "OG Type"
        value := some v
        status := .ok
        score := 85
        message := "OG type is set."
        recommendation := "Keep it aligned with the page content." }

/-- Models `evaluateTwitterCard(value)`. -/
def evaluateTwitterCard (value : Option String) : TagResult :=
  match value with
  | none =>
    { tag := "meta[name=\"twitter:card\"]"
      label := "Twitter Card"
      status := .warning
      score := 55
      message := "Twitter card is not defined."
      recommendation := "Use summary_large_image for rich link previews." }
  | some v =>
    if v = "" then
      { tag := "meta[name=\"twitter:card\"]"
        label := "Twitter Card"
        status := .warning
        score := 55
        message := "Twitter card is not defined."
        recommendation := "Use summary_large_image for rich link previews." }
    else
      let normalized := toLowerStr v
      if normalized ≠ "summary_large_image" ∧ normalized ≠ "summary" then
        { tag := "meta[name=\"twitter:card\"]"
          label := "Twitter Card"
          value := some v
          status := .warning
          score := 60
          message := "Non-standard twitter:card value — " ++ v ++ "."
          recommendation :=
            "Use summary or summary_large_image for consistent rendering." }
      else
        { tag := "meta[name=\"twitter:card\"]"
          label := "Twitter Card"
          value := some normalized
          status := .ok
          score := 85
          message := "Twitter card value looks good."
          recommendation := "Validate it with the Twitter Card Validator." }

/-- Models `evaluateTwitterTitle(value)`. -/
def evaluateTwitterTitle (value : Option String) : TagResult :=
  match value with
  | none =>
    createMissingTag "meta[name=\"twitter:title\"]" "Twitter Title" true
      "Add twitter:title — keep it short and compelling."
  | some v =>
    if v = "" then
      createMissingTag "meta[name=\"twitter:title\"]" "Twitter Title" true
        "Add twitter:title — keep it short and compelling."
    else
      let length := v.length
      if length > 70 then
        { tag := "meta[name=\"twitter:title\"]"
          label := "Twitter Title"
          value := some v
          length := some length
          status := .warning
          score := 60
          message := "Twitter title has " ++ toString length ++
            " characters — trim to 70."
          recommendation :=
            "Rewrite the headline to 70 characters or fewer for social." }
      else
        { tag := "meta[name=\"twitter:title\"]"
          label := "Twitter Title"
          value := some v
          length := some length
          status := .ok
          score := 90
          message := "Twitter title looks good."
          recommendation := "Align it with the OG title and HTML title." }

/-- Models `evaluateTwitterDescription(value)`. -/
def evaluateTwitterDescription (value : Option String) : TagResult :=
  match value with
  | none =>
    createMissingTag "meta[name=\"twitter:description\"]" "Twitter Description" true
      "Add twitter:description (up to 200 characters)."
  | some v =>
    if v = "" then
      createMissingTag "meta[name=\"twitter:description\"]" "Twitter Description" true
        "Add twitter:description (up to 200 characters)."
    else
      let length := v.length
      if length > 200 then
        { tag := "meta[name=\"twitter:description\"]"
          label := "Twitter Description"
          value := some v
          length := some length
          status := .warning
          score := 60
          message := "Twitter description has " ++ toString length ++
            " characters — limit to 200."
          recommendation :=
            "Focus on the key benefit within 200 characters." }
      else
        { tag := "meta[name=\"twitter:description\"]"
          label := "Twitter Description"
          value := some v
          length := some length
          status := .ok
          score := 90
          message := "Twitter description length is on point."
          recommendation :=
            "Surface the value and CTA tailored for social." }

/-- Models `evaluateTwitterImage(value)` (the value it receives from
`evaluateTwitterSection` is already resolved against the base URL).
It never yields an error status. -/
def evaluateTwitterImage (value : Option String) : TagResult :=
  match value with
  | none =>
    { tag := "meta[name=\"twitter:image\"]"
      label := "Twitter Image"
      status := .warning
      score := 55
      message := "Twitter image is not specified."
      recommendation :=
        "Provide an image 1200×630 px or 800×418 px for cards." }
  | some v =>
    if v = "" then
      { tag := "meta[name=\"twitter:image\"]"
        label := "Twitter Image"
        status := .warning
        score := 55
        message := "Twitter image is not specified."
        recommendation :=
          "Provide an image 1200×630 px or 800×418 px for cards." }
    else
      { tag := "meta[name=\"twitter:image\"]"
        label := "Twitter Image"
        value := some v
        status := .ok
        score := 85
        message := "Twitter image is set."
        recommendation :=
          "Ensure the image is accessible and in a supported format." }

/-! ### Section assembly and report composition -/

/-- Models `severityRank(status)`. -/
def severityRank : TagStatus → Nat
  | .error => 0
  | .warning => 1
  | .ok => 2

/-- Models `Math.round(sum / n)` for a non-negative integer `sum` and a
positive count `n`: exact round-half-up (`Math.round` rounds a positive
half toward positive infinity). -/
def roundHalfUp (sum n : Nat) : Nat := (2 * sum + n) / (2 * n)

/-- Sum of the scores of a list of tag results, as the source's
`tags.reduce((sum, tag) => sum + tag.score, 0)`. -/
def sumScores (tags : List TagResult) : Nat :=
  tags.foldl (fun sum tag => sum + tag.score) 0

/-- Score half of `summarizeSection(tags)`:
`Math.round(tags.reduce(...) / tags.length)`. -/
def sectionScore (tags : List TagResult) : Nat :=
  roundHalfUp (sumScores tags) tags.length

/-- Models `deriveSectionStatus(tags)`. -/
def deriveSectionStatus (tags : List TagResult) : TagStatus :=
  if tags.any (fun tag => tag.status = .error) then .error
  else if tags.any (fun tag => tag.status = .warning) then .warning
  else .ok

/-- Models `deriveSummaryStatus(sections)`. -/
def deriveSummaryStatus (sections : List SectionResult) : TagStatus :=
  if sections.any (fun s => s.status = .error) then .error
  else if sections.any (fun s => s.status = .warning) then .warning
  else .ok

/-- Models the tag list built by `evaluateMetaSection($, baseUrl)`. -/
def metaSectionTags (doc : Doc) (baseUrl : Url) : List TagResult :=
  let title := normalizeText (some doc.titleText)
  let description := normalizeText doc.description
  let keywords := normalizeText doc.keywords
  let canonical := getCanonical doc baseUrl
  let robots := normalizeText doc.robots
  [ evaluateTitle title,
    evaluateDescription description,
    evaluateKeywords keywords,
    evaluateCanonical canonical baseUrl,
    evaluateRobots robots ]

/-- Models the tag list built by `evaluateOpenGraphSection($, baseUrl)`:
note `og:url` is resolved against the base before its evaluator runs. -/
def openGraphSectionTags (doc : Doc) (baseUrl : Url) : List TagResult :=
  let ogTitle := normalizeText doc.ogTitle
  let ogDescription := normalizeText doc.ogDescription
  let ogImage := normalizeText doc.ogImage
  let ogUrl := resolveMaybeUrl (normalizeText doc.ogUrl) baseUrl
  let ogType := normalizeText doc.ogType
  [ evaluateOpenGraphTitle ogTitle,
    evaluateOpenGraphDescription ogDescription,
    evaluateOpenGraphImage ogImage baseUrl,
    evaluateOptionalUrl "og:url" "OG URL" ogUrl,
    evaluateOpenGraphType ogType ]

/-- Models the tag list built by `evaluateTwitterSection($, baseUrl)`:
note `twitter:image` is resolved against the base before its evaluator
runs. -/
def twitterSectionTags (doc : Doc) (baseUrl : Url) : List TagResult :=
  let twitterCard := normalizeText doc.twitterCard
  let twitterTitle := normalizeText doc.twitterTitle
  let twitterDescription := normalizeText doc.twitterDescription
  let twitterImage := resolveMaybeUrl (normalizeText doc.twitterImage) baseUrl
  [ evaluateTwitterCard twitterCard,
    evaluateTwitterTitle twitterTitle,
    evaluateTwitterDescription twitterDescription,
    evaluateTwitterImage twitterImage ]

/-- One entry of the `sections` array: the id/label literals of
`analyzeDocument` spread together with `summarizeSection(tags)`. -/
def mkSection (id : SectionId) (label : String) (tags : List TagResult) :
    SectionResult :=
  { id := id
    label := label
    status := deriveSectionStatus tags
    score := sectionScore tags
    tags := tags }

/-- The `sections` array of `analyzeDocument`. -/
def sectionsOf (doc : Doc) (baseUrl : Url) : List SectionResult :=
  [ mkSection .meta "Technical meta tags" (metaSectionTags doc baseUrl),
    mkSection .openGraph "Open Graph" (openGraphSectionTags doc baseUrl),
    mkSection .twitter "Twitter Card" (twitterSectionTags doc baseUrl) ]

/-- Models the `sectionScores` reduce of `analyzeDocument` (starting
from `{ meta: 0, openGraph: 0, twitter: 0 }`). -/
def sectionScoresOf (sections : List SectionResult) : SectionScores :=
  sections.foldl
    (fun acc s =>
      match s.id with
      | .meta => { acc with meta := s.score }
      | .openGraph => { acc with openGraph := s.score }
      | .twitter => { acc with twitter := s.score })
    ⟨0, 0, 0⟩

/-- Models the `overallScore` computation:
`Math.round(sections.reduce((sum, {score}) => sum + score, 0) / sections.length)`. -/
def overallScoreOf (sections : List SectionResult) : Nat :=
  roundHalfUp (sections.foldl (fun sum s => sum + s.score) 0) sections.length

/-- The issue built from a non-ok tag result of a section
(`id: `${section.id}-${tag.tag}``, `severity: tag.status`, ...;
`recommendation ?? ''` is the identity here since every evaluator sets
a recommendation). -/
def mkIssue (s : SectionResult) (tag : TagResult) : SeoIssue :=
  { id := s.id.key ++ "-" ++ tag.tag
    tag := tag.label
    «section» := s.id
    severity := tag.status
    message := tag.message
    recommendation := tag.recommendation }

/-- The unsorted issue list: the `flatMap` of non-ok tags over the
sections. -/
def rawIssues (sections : List SectionResult) : List SeoIssue :=
  sections.flatMap
    (fun s => (s.tags.filter (fun tag => tag.status ≠ .ok)).map (mkIssue s))

/-- Comparator order of the issue sort:
`(a, b) => severityRank(a.severity) - severityRank(b.severity)`. -/
def issueLe (a b : SeoIssue) : Prop :=
  severityRank a.severity ≤ severityRank b.severity

instance : DecidableRel issueLe := fun a b =>
  Nat.decLe (severityRank a.severity) (severityRank b.severity)

instance : IsTotal SeoIssue issueLe :=
  ⟨fun a b => Nat.le_total (severityRank a.severity) (severityRank b.severity)⟩

instance : IsTrans SeoIssue issueLe :=
  ⟨fun _ _ _ hab hbc => Nat.le_trans hab hbc⟩

/-- Models the `.sort(...)` on the issue list.  `Array.prototype.sort`
is a stable sort; insertion sort computes exactly the stable reordering
under this total preorder. -/
def issuesOf (sections : List SectionResult) : List SeoIssue :=
  (rawIssues sections).insertionSort issueLe

/-- Helper for `dedupFirst`: keep an element iff it has not been seen
at a smaller index. -/
def dedupFirstAux (seen : List String) : List String → List String
  | [] => []
  | x :: xs =>
    if x ∈ seen then dedupFirstAux seen xs
    else x :: dedupFirstAux (x :: seen) xs

/-- Models the `filter((value, index, array) => array.indexOf(value) === index)`
idiom: keep exactly the first occurrence of each element. -/
def dedupFirst (l : List String) : List String := dedupFirstAux [] l

/-- Models the `missing` computation: labels of tags that are both
status `error` and without a value, deduplicated keeping first
occurrences. -/
def missingOf (sections : List SectionResult) : List String :=
  dedupFirst
    (sections.flatMap
      (fun s =>
        (s.tags.filter (fun tag => tag.status = .error ∧ tag.value = none)).map
          (fun tag => tag.label)))

/-- Models `section.tags.find(t => t.tag === name)?.value`. -/
def tagValue (tags : List TagResult) (name : String) : Option String :=
  (tags.find? (fun t => t.tag = name)).bind (fun t => t.value)

/-- Models `buildPreviews(sections, finalUrl, baseUrl)`.  The one
fallible step is the `og:url` preview fallback `new URL(finalUrl).toString()`,
which throws (modelled by `none`) when `finalUrl` is unparseable and the
`og:url` tag carries no value. -/
def buildPreviews (sections : List SectionResult) (finalUrl : String)
    (baseUrl : Url) : Option SeoPreviews :=
  let metaT := match sections.find? (fun s => s.id = .meta) with
    | some s => s.tags
    | none => []
  let openGraphT := match sections.find? (fun s => s.id = .openGraph) with
    | some s => s.tags
    | none => []
  let twitterT := match sections.find? (fun s => s.id = .twitter) with
    | some s => s.tags
    | none => []
  let title :=
    (tagValue metaT "title" <|>
      tagValue openGraphT "meta[property=\"og:title\"]").getD "Preview"
  let description :=
    (tagValue metaT "meta[name=\"description\"]" <|>
      tagValue openGraphT "meta[property=\"og:description\"]").getD ""
  let ogTitle :=
    (tagValue openGraphT "meta[property=\"og:title\"]").getD title
  let ogDescription :=
    (tagValue openGraphT "meta[property=\"og:description\"]").getD description
  let ogImage := tagValue openGraphT "meta[property=\"og:image\"]"
  let ogUrlStep : Option String :=
    match tagValue openGraphT "og:url" with
    | some v => some v
    | none => (safeUrl finalUrl).map Url.toString
  match ogUrlStep with
  | none => none
  | some ogUrl =>
    let twitterTitle :=
      (tagValue twitterT "meta[name=\"twitter:title\"]").getD title
    let twitterDescription :=
      (tagValue twitterT "meta[name=\"twitter:description\"]").getD description
    let twitterImage :=
      match tagValue twitterT "meta[name=\"twitter:image\"]" with
      | some v => some v
      | none => ogImage
    let twitterCard :=
      (tagValue twitterT "meta[name=\"twitter:card\"]").getD
        "summary_large_image"
    some
      { google :=
          { title := title
            description := description
            url := finalUrl
            domain := baseUrl.host }
        openGraph :=
          { title := ogTitle
            description := ogDescription
            image := ogImage
            url := ogUrl
            siteName := baseUrl.host }
        twitter :=
          { title := twitterTitle
            description := twitterDescription
            image := twitterImage
            url := finalUrl
            siteName := baseUrl.host
            card := twitterCard } }

/-- The base URL selection of `analyzeDocument`:
`safeUrl(finalUrl) ?? safeUrl(requestedUrl) ?? new URL('https://example.com')`
(the placeholder parses to host `example.com` with path `/`). -/
def baseOf (requestedUrl finalUrl : String) : Url :=
  ((safeUrl finalUrl).orElse (fun _ => safeUrl requestedUrl)).getD
    ⟨"https", "example.com", "/"⟩

/-- Models `analyzeDocument(html, requestedUrl, finalUrl)`.  `doc` is
the abstraction of `load(html)`; `fetchedAt` is the ambient
`new Date().toISOString()` made explicit; `none` models the function
throwing. -/
def analyzeDocument (doc : Doc) (requestedUrl finalUrl fetchedAt : String) :
    Option SeoAnalysis :=
  let baseUrl := baseOf requestedUrl finalUrl
  let sections := sectionsOf doc baseUrl
  match buildPreviews sections finalUrl baseUrl with
  | none => none
  | some previews =>
    some
      { url := requestedUrl
        finalUrl := finalUrl
        fetchedAt := fetchedAt
        summary :=
          { overallScore := overallScoreOf sections
            status := deriveSummaryStatus sections
            sectionScores := sectionScoresOf sections }
        sections := sections
        issues := issuesOf sections
        missing := missingOf sections
        previews := previews }

/-! ### Specification-side notions and sample inputs -/

/-- Worst status of a list under the precedence error > warning > ok,
formalized independently of the engine as the minimum of `severityRank`
(error has rank 0, so "worst" is the smallest rank). -/
def worstStatus (l : List TagStatus) : TagStatus :=
  l.foldr (fun a b => if severityRank a ≤ severityRank b then a else b) .ok

/-- Well-formedness of a `Url` value: what the parser guarantees about
its output and `toString` needs for exact round-tripping. -/
def Url.Valid (u : Url) : Prop :=
  u.scheme.data ≠ [] ∧ u.scheme.data.all isSchemeChar = true ∧
  u.host.data ≠ [] ∧ u.host.data.all isHostChar = true ∧
  u.path.data.head? = some '/'

/-- A sample document exercising several branches: whitespace-padded
title, relative canonical, unparseable `og:image` / `og:url` /
`twitter:image` values, non-standard `twitter:card`. -/
def sampleDoc : Doc :=
  { titleText := "  Hello  "
    canonicalHref := some "/about"
    ogImage := some "http://"
    ogUrl := some "http://"
    twitterCard := some "photo"
    twitterImage := some "https://" }

/-- The analysis of `sampleDoc` (fetched at time "now"). -/
def sampleAnalysis : SeoAnalysis :=
  (analyzeDocument sampleDoc "https://example.com/" "https://example.com/"
    "now").get (by rfl)

/-- The analysis of `sampleDoc` at a different clock reading. -/
def sampleAnalysis2 : SeoAnalysis :=
  (analyzeDocument sampleDoc "https://example.com/" "https://example.com/"
    "later").get (by rfl)

/-! ### Basic lemmas: splitting, round-tripping, deduplication -/

lemma mk_data_eq (s : String) : String.mk s.data = s := by
  cases s
  rfl

lemma splitAtChar_append {sep : Char} {a b : List Char}
    (ha : ∀ c ∈ a, c ≠ sep) : splitAtChar sep (a ++ sep :: b) = some (a, b) := by
  induction a with
  | nil => simp [splitAtChar]
  | cons c cs ih =>
    have hc : c ≠ sep := ha c (by simp)
    simp only [List.cons_append, splitAtChar, if_neg hc, List.append_eq,
      ih (fun x hx => ha x (by simp [hx])), Option.map_some']

lemma scheme_no_colon {l : List Char} (h : l.all isSchemeChar = true) :
    ∀ c ∈ l, c ≠ ':' := by
  intro c hc
  have := (List.all_eq_true.mp h) c hc
  simp only [isSchemeChar] at this
  intro rfl'
  subst rfl'
  simp [Char.isAlpha, Char.isUpper, Char.isLower] at this

lemma host_no_slash {l : List Char} (h : l.all isHostChar = true) :
    ∀ c ∈ l, c ≠ '/' := by
  intro c hc
  have := (List.all_eq_true.mp h) c hc
  simp only [isHostChar, Bool.and_eq_true, bne_iff_ne] at this
  exact this.1.1

lemma toString_data (u : Url) :
    (Url.toString u).data =
      u.scheme.data ++ ':' :: '/' :: '/' :: (u.host.data ++ u.path.data) := by
  simp [Url.toString, String.data_append, List.append_assoc]

lemma parse_toString {u : Url} (h : u.Valid) :
    parseAbsList (Url.toString u).data = some u := by
  obtain ⟨h1, h2, h3, h4, h5⟩ := h
  obtain ⟨rest, hrest⟩ : ∃ rest, u.path.data = '/' :: rest := by
    cases hp : u.path.data with
    | nil => rw [hp] at h5; simp at h5
    | cons c cs =>
      rw [hp] at h5
      simp only [List.head?_cons, Option.some.injEq] at h5
      exact ⟨cs, by rw [h5]⟩
  rw [toString_data, hrest]
  have hsplit1 :=
    splitAtChar_append (b := '/' :: '/' :: (u.host.data ++ '/' :: rest))
      (scheme_no_colon h2)
  have hsplit2 := splitAtChar_append (b := rest) (host_no_slash h4)
  simp only [parseAbsList, hsplit1, hsplit2, ne_eq, h1, not_false_iff, h2,
    and_self, if_true, h3, h4, Option.some.injEq]
  rw [← hrest]

lemma parseAbsList_valid {l : List Char} {u : Url}
    (h : parseAbsList l = some u) : u.Valid := by
  unfold parseAbsList at h
  split at h
  · exact Option.noConfusion h
  · next sch rest heq =>
    split at h
    · next hcond =>
      split at h
      · next hp =>
        split at h
        · split at h
          · next hcond2 =>
            cases h
            exact ⟨hcond.1, by simpa using hcond.2, hcond2.1,
              by simpa using hcond2.2, rfl⟩
          · exact Option.noConfusion h
        · next host pathRest hsp =>
          split at h
          · next hcond2 =>
            cases h
            exact ⟨hcond.1, by simpa using hcond.2, hcond2.1,
              by simpa using hcond2.2, rfl⟩
          · exact Option.noConfusion h
      · exact Option.noConfusion h
    · exact Option.noConfusion h

lemma resolveUrl_valid {s : String} {base u : Url} (hb : base.Valid)
    (h : resolveUrl s base = some u) : u.Valid := by
  unfold resolveUrl at h
  split at h
  · exact parseAbsList_valid h
  · cases h
    refine ⟨hb.1, hb.2.1, hb.2.2.1, hb.2.2.2.1, ?_⟩
    dsimp only
    split
    · next hhead => exact hhead
    · rfl

lemma baseOf_valid (req fin : String) : (baseOf req fin).Valid := by
  unfold baseOf
  cases hf : safeUrl fin with
  | some u =>
    simpa [Option.orElse] using parseAbsList_valid (l := fin.data) hf
  | none =>
    cases hr : safeUrl req with
    | some u =>
      simpa [Option.orElse] using parseAbsList_valid (l := req.data) hr
    | none =>
      simp only [Option.orElse, Option.getD]
      refine ⟨by decide, by decide, by decide, by decide, by decide⟩

lemma toString_ne_empty (u : Url) : Url.toString u ≠ "" := by
  intro h
  have hd := congrArg String.data h
  rw [toString_data] at hd
  simp at hd

lemma toString_contains_colon (u : Url) :
    (Url.toString u).data.contains ':' = true := by
  rw [toString_data]
  exact List.elem_eq_true_of_mem (by simp)

lemma roundtrip {base u : Url} (hu : u.Valid) :
    resolveMaybeUrl (some (Url.toString u)) base = some (Url.toString u) ∧
      safeUrl (Url.toString u) = some u := by
  refine ⟨?_, parse_toString hu⟩
  simp only [resolveMaybeUrl, if_neg (toString_ne_empty u), resolveUrl,
    if_pos (toString_contains_colon u), parse_toString hu, Option.map_some']

lemma resolveMaybeUrl_some {base : Url} {s v : String} (hb : base.Valid)
    (h : resolveMaybeUrl (some s) base = some v) :
    ∃ u : Url, u.Valid ∧ v = Url.toString u := by
  simp only [resolveMaybeUrl] at h
  split at h
  · exact Option.noConfusion h
  · cases hu : resolveUrl s base with
    | none => rw [hu] at h; exact Option.noConfusion h
    | some u =>
      rw [hu, Option.map_some'] at h
      exact ⟨u, resolveUrl_valid hb hu, (Option.some.inj h).symm⟩

lemma evaluateCanonical_resolved {base : Url} {s v : String} (hb : base.Valid)
    (h : resolveMaybeUrl (some s) base = some v) :
    evaluateCanonical (some v) base =
      { tag := "link[rel=\"canonical\"]"
        label := "Canonical"
        value := some v
        status := .ok
        score := 90
        message := "Canonical tag is defined and valid."
        recommendation := "Confirm it matches the primary page URL." } := by
  obtain ⟨u, hu, rfl⟩ := resolveMaybeUrl_some hb h
  have hrt := @roundtrip base u hu
  simp only [evaluateCanonical, if_neg (toString_ne_empty u), hrt.1, hrt.2]

lemma mem_of_mem_dedupFirstAux :
    ∀ {l : List String} {seen : List String} {x : String},
      x ∈ dedupFirstAux seen l → x ∈ l := by
  intro l
  induction l with
  | nil => intro seen x h; exact absurd h (by simp [dedupFirstAux])
  | cons y ys ih =>
    intro seen x h
    simp only [dedupFirstAux] at h
    split at h
    · exact List.mem_cons_of_mem y (ih h)
    · rcases List.mem_cons.mp h with h | h
      · exact h ▸ List.mem_cons_self y ys
      · exact List.mem_cons_of_mem y (ih h)

lemma dedupFirstAux_nodup_notin :
    ∀ (l seen : List String),
      (dedupFirstAux seen l).Nodup ∧ ∀ x ∈ dedupFirstAux seen l, x ∉ seen := by
  intro l
  induction l with
  | nil => intro seen; simp [dedupFirstAux]
  | cons y ys ih =>
    intro seen
    simp only [dedupFirstAux]
    split
    · next hy =>
      exact ⟨(ih seen).1, (ih seen).2⟩
    · next hy =>
      refine ⟨List.nodup_cons.mpr ⟨?_, (ih (y :: seen)).1⟩, ?_⟩
      · intro hmem
        exact absurd (List.mem_cons_self y seen) ((ih (y :: seen)).2 y hmem)
      · intro x hx
        rcases List.mem_cons.mp hx with rfl | hx
        · exact hy
        · intro hxseen
          exact absurd (List.mem_cons_of_mem y hxseen) ((ih (y :: seen)).2 x hx)

lemma dedupFirst_nodup (l : List String) : (dedupFirst l).Nodup :=
  (dedupFirstAux_nodup_notin l []).1

lemma mem_of_mem_dedupFirst {l : List String} {x : String}
    (h : x ∈ dedupFirst l) : x ∈ l :=
  mem_of_mem_dedupFirstAux h

lemma ifAny_eq_worst (l : List TagStatus) :
    (if l.any (fun s => s = TagStatus.error) then TagStatus.error
     else if l.any (fun s => s = TagStatus.warning) then TagStatus.warning
     else TagStatus.ok) = worstStatus l := by
  induction l with
  | nil => rfl
  | cons a l ih =>
    have hw : worstStatus (a :: l) =
        if severityRank a ≤ severityRank (worstStatus l) then a
        else worstStatus l := rfl
    rw [hw, ← ih]
    by_cases he : l.any (fun s => s = TagStatus.error) = true <;>
      by_cases hwa : l.any (fun s => s = TagStatus.warning) = true <;>
        cases a <;>
          simp [List.any_cons, he, hwa, severityRank]

lemma deriveSectionStatus_eq (tags : List TagResult) :
    deriveSectionStatus tags = worstStatus (tags.map (fun tag => tag.status)) := by
  rw [← ifAny_eq_worst]
  simp [deriveSectionStatus, List.any_map, Function.comp_def]

lemma deriveSummaryStatus_eq (sections : List SectionResult) :
    deriveSummaryStatus sections =
      worstStatus (sections.map (fun s => s.status)) := by
  rw [← ifAny_eq_worst]
  simp [deriveSummaryStatus, List.any_map, Function.comp_def]

/-! ### Per-evaluator tag/label constancy and status range -/

@[simp]
lemma tl_evaluateTitle (v : Option String) :
    (evaluateTitle v).tag = "title" ∧ (evaluateTitle v).label = "Title" := by
  rcases v with _ | s <;> simp only [evaluateTitle, createMissingTag] <;>
    (repeat' split) <;> simp

@[simp]
lemma tl_evaluateDescription (v : Option String) :
    (evaluateDescription v).tag = "meta[name=\"description\"]" ∧
      (evaluateDescription v).label = "Meta Description" := by
  rcases v with _ | s <;> simp only [evaluateDescription, createMissingTag] <;>
    (repeat' split) <;> simp

@[simp]
lemma tl_evaluateKeywords (v : Option String) :
    (evaluateKeywords v).tag = "meta[name=\"keywords\"]" ∧
      (evaluateKeywords v).label = "Meta Keywords" := by
  rcases v with _ | s <;> simp only [evaluateKeywords] <;>
    (repeat' split) <;> simp

@[simp]
lemma tl_evaluateCanonical (v : Option String) (b : Url) :
    (evaluateCanonical v b).tag = "link[rel=\"canonical\"]" ∧
      (evaluateCanonical v b).label = "Canonical" := by
  rcases v with _ | s <;> simp only [evaluateCanonical, createMissingTag] <;>
    (repeat' split) <;> simp

@[simp]
lemma tl_evaluateRobots (v : Option String) :
    (evaluateRobots v).tag = "meta[name=\"robots\"]" ∧
      (evaluateRobots v).label = "Meta Robots" := by
  rcases v with _ | s <;> simp only [evaluateRobots] <;>
    (repeat' split) <;> simp

@[simp]
lemma tl_evaluateOpenGraphTitle (v : Option String) :
    (evaluateOpenGraphTitle v).tag = "meta[property=\"og:title\"]" ∧
      (evaluateOpenGraphTitle v).label = "OG Title" := by
  rcases v with _ | s <;>
    simp only [evaluateOpenGraphTitle, createMissingTag] <;>
      (repeat' split) <;> simp

@[simp]
lemma tl_evaluateOpenGraphDescription (v : Option String) :
    (evaluateOpenGraphDescription v).tag = "meta[property=\"og:description\"]" ∧
      (evaluateOpenGraphDescription v).label = "OG Description" := by
  rcases v with _ | s <;>
    simp only [evaluateOpenGraphDescription, createMissingTag] <;>
      (repeat' split) <;> simp

@[simp]
lemma tl_evaluateOpenGraphImage (v : Option String) (b : Url) :
    (evaluateOpenGraphImage v b).tag = "meta[property=\"og:image\"]" ∧
      (evaluateOpenGraphImage v b).label = "OG Image" := by
  rcases v with _ | s <;>
    simp only [evaluateOpenGraphImage, createMissingTag] <;>
      (repeat' split) <;> simp

@[simp]
lemma tl_evaluateOptionalUrl (t l : String) (v : Option String) :
    (evaluateOptionalUrl t l v).tag = t ∧
      (evaluateOptionalUrl t l v).label = l := by
  rcases v with _ | s <;> simp only [evaluateOptionalUrl] <;>
    (repeat' split) <;> simp

@[simp]
lemma tl_evaluateOpenGraphType (v : Option String) :
    (evaluateOpenGraphType v).tag = "meta[property=\"og:type\"]" ∧
      (evaluateOpenGraphType v).label = "OG Type" := by
  rcases v with _ | s <;> simp only [evaluateOpenGraphType] <;>
    (repeat' split) <;> simp

@[simp]
lemma tl_evaluateTwitterCard (v : Option String) :
    (evaluateTwitterCard v).tag = "meta[name=\"twitter:card\"]" ∧
      (evaluateTwitterCard v).label = "Twitter Card" := by
  rcases v with _ | s <;> simp only [evaluateTwitterCard] <;>
    (repeat' split) <;> simp

@[simp]
lemma tl_evaluateTwitterTitle (v : Option String) :
    (evaluateTwitterTitle v).tag = "meta[name=\"twitter:title\"]" ∧
      (evaluateTwitterTitle v).label = "Twitter Title" := by
  rcases v with _ | s <;>
    simp only [evaluateTwitterTitle, createMissingTag] <;>
      (repeat' split) <;> simp

@[simp]
lemma tl_evaluateTwitterDescription (v : Option String) :
    (evaluateTwitterDescription v).tag = "meta[name=\"twitter:description\"]" ∧
      (evaluateTwitterDescription v).label = "Twitter Description" := by
  rcases v with _ | s <;>
    simp only [evaluateTwitterDescription, createMissingTag] <;>
      (repeat' split) <;> simp

@[simp]
lemma tl_evaluateTwitterImage (v : Option String) :
    (evaluateTwitterImage v).tag = "meta[name=\"twitter:image\"]" ∧
      (evaluateTwitterImage v).label = "Twitter Image" := by
  rcases v with _ | s <;> simp only [evaluateTwitterImage] <;>
    (repeat' split) <;> simp

lemma status_evaluateOptionalUrl (t l : String) (v : Option String) :
    (evaluateOptionalUrl t l v).status ≠ .error := by
  rcases v with _ | s <;> simp only [evaluateOptionalUrl] <;>
    (repeat' split) <;> simp

lemma status_evaluateTwitterImage (v : Option String) :
    (evaluateTwitterImage v).status ≠ .error := by
  rcases v with _ | s <;> simp only [evaluateTwitterImage] <;>
    (repeat' split) <;> simp

/-! ### Inversion of the analysis pipeline -/

lemma analyzeDocument_inv {doc : Doc} {req fin t : String} {a : SeoAnalysis}
    (h : analyzeDocument doc req fin t = some a) :
    a.url = req ∧ a.finalUrl = fin ∧ a.fetchedAt = t ∧
    a.sections = sectionsOf doc (baseOf req fin) ∧
    a.summary =
      { overallScore := overallScoreOf (sectionsOf doc (baseOf req fin))
        status := deriveSummaryStatus (sectionsOf doc (baseOf req fin))
        sectionScores := sectionScoresOf (sectionsOf doc (baseOf req fin)) } ∧
    a.issues = issuesOf (sectionsOf doc (baseOf req fin)) ∧
    a.missing = missingOf (sectionsOf doc (baseOf req fin)) ∧
    buildPreviews (sectionsOf doc (baseOf req fin)) fin (baseOf req fin) =
      some a.previews := by
  simp only [analyzeDocument] at h
  split at h
  · exact Option.noConfusion h
  · next p heq =>
    have hp := Option.some.inj h
    subst hp
    exact ⟨rfl, rfl, rfl, rfl, rfl, rfl, rfl, heq⟩

lemma sections_tags_cases {doc : Doc} {b : Url} {s : SectionResult}
    {tag : TagResult} (hs : s ∈ sectionsOf doc b) (ht : tag ∈ s.tags) :
    tag = evaluateTitle (normalizeText (some doc.titleText)) ∨
    tag = evaluateDescription (normalizeText doc.description) ∨
    tag = evaluateKeywords (normalizeText doc.keywords) ∨
    tag = evaluateCanonical (getCanonical doc b) b ∨
    tag = evaluateRobots (normalizeText doc.robots) ∨
    tag = evaluateOpenGraphTitle (normalizeText doc.ogTitle) ∨
    tag = evaluateOpenGraphDescription (normalizeText doc.ogDescription) ∨
    tag = evaluateOpenGraphImage (normalizeText doc.ogImage) b ∨
    tag = evaluateOptionalUrl "og:url" "OG URL"
      (resolveMaybeUrl (normalizeText doc.ogUrl) b) ∨
    tag = evaluateOpenGraphType (normalizeText doc.ogType) ∨
    tag = evaluateTwitterCard (normalizeText doc.twitterCard) ∨
    tag = evaluateTwitterTitle (normalizeText doc.twitterTitle) ∨
    tag = evaluateTwitterDescription (normalizeText doc.twitterDescription) ∨
    tag = evaluateTwitterImage
      (resolveMaybeUrl (normalizeText doc.twitterImage) b) := by
  simp only [sectionsOf, List.mem_cons, List.not_mem_nil, or_false] at hs
  rcases hs with rfl | rfl | rfl <;>
    simp only [mkSection, metaSectionTags, openGraphSectionTags,
      twitterSectionTags, List.mem_cons, List.not_mem_nil, or_false] at ht <;>
      tauto

lemma mem_missingOf {sections : List SectionResult} {lab : String}
    (h : lab ∈ missingOf sections) :
    ∃ s ∈ sections, ∃ tag ∈ s.tags,
      tag.status = .error ∧ tag.value = none ∧ tag.label = lab := by
  unfold missingOf at h
  have h' := mem_of_mem_dedupFirst h
  simp only [List.mem_flatMap, List.mem_map, List.mem_filter,
    decide_eq_true_eq] at h'
  obtain ⟨s, hs, tag, ⟨htag, hcond⟩, hlab⟩ := h'
  exact ⟨s, hs, tag, htag, hcond.1, hcond.2, hlab⟩

lemma og_image_slot {doc : Doc} {b : Url} {s : SectionResult} {tag : TagResult}
    (hs : s ∈ sectionsOf doc b) (ht : tag ∈ s.tags)
    (hl : tag.label = "OG Image") :
    tag = evaluateOpenGraphImage (normalizeText doc.ogImage) b := by
  rcases sections_tags_cases hs ht with
    rfl | rfl | rfl | rfl | rfl | rfl | rfl | rfl | rfl | rfl | rfl | rfl |
      rfl | rfl <;> simp_all

lemma canonical_slot {doc : Doc} {b : Url} {s : SectionResult}
    {tag : TagResult} (hs : s ∈ sectionsOf doc b) (ht : tag ∈ s.tags)
    (hl : tag.label = "Canonical") :
    tag = evaluateCanonical (getCanonical doc b) b := by
  rcases sections_tags_cases hs ht with
    rfl | rfl | rfl | rfl | rfl | rfl | rfl | rfl | rfl | rfl | rfl | rfl |
      rfl | rfl <;> simp_all

lemma og_url_slot {doc : Doc} {b : Url} {s : SectionResult} {tag : TagResult}
    (hs : s ∈ sectionsOf doc b) (ht : tag ∈ s.tags)
    (hl : tag.label = "OG URL") :
    tag = evaluateOptionalUrl "og:url" "OG URL"
      (resolveMaybeUrl (normalizeText doc.ogUrl) b) := by
  rcases sections_tags_cases hs ht with
    rfl | rfl | rfl | rfl | rfl | rfl | rfl | rfl | rfl | rfl | rfl | rfl |
      rfl | rfl <;> simp_all

lemma twitter_image_slot {doc : Doc} {b : Url} {s : SectionResult}
    {tag : TagResult} (hs : s ∈ sectionsOf doc b) (ht : tag ∈ s.tags)
    (hl : tag.label = "Twitter Image") :
    tag = evaluateTwitterImage
      (resolveMaybeUrl (normalizeText doc.twitterImage) b) := by
  rcases sections_tags_cases hs ht with
    rfl | rfl | rfl | rfl | rfl | rfl | rfl | rfl | rfl | rfl | rfl | rfl |
      rfl | rfl <;> simp_all

lemma normalizeText_ne_empty {x : Option String} {v : String}
    (h : normalizeText x = some v) : v ≠ "" := by
  rcases x with _ | s
  · exact Option.noConfusion h
  · simp only [normalizeText] at h
    split at h
    · exact Option.noConfusion h
    · split at h
      · next hlen =>
        obtain rfl := Option.some.inj h
        intro he
        exact hlen (by rw [he]; rfl)
      · exact Option.noConfusion h

lemma tagValue_twitterCard (doc : Doc) (b : Url) :
    tagValue (twitterSectionTags doc b) "meta[name=\"twitter:card\"]" =
      (evaluateTwitterCard (normalizeText doc.twitterCard)).value := by
  simp only [tagValue, twitterSectionTags]
  rw [List.find?_cons_of_pos _ (by simp)]
  rfl

lemma tagValue_twitterImage (doc : Doc) (b : Url) :
    tagValue (twitterSectionTags doc b) "meta[name=\"twitter:image\"]" =
      (evaluateTwitterImage
        (resolveMaybeUrl (normalizeText doc.twitterImage) b)).value := by
  simp only [tagValue, twitterSectionTags]
  rw [List.find?_cons_of_neg _ (by simp), List.find?_cons_of_neg _ (by simp),
    List.find?_cons_of_neg _ (by simp), List.find?_cons_of_pos _ (by simp)]
  rfl

lemma tagValue_ogImage (doc : Doc) (b : Url) :
    tagValue (openGraphSectionTags doc b) "meta[property=\"og:image\"]" =
      (evaluateOpenGraphImage (normalizeText doc.ogImage) b).value := by
  simp only [tagValue, openGraphSectionTags]
  rw [List.find?_cons_of_neg _ (by simp), List.find?_cons_of_neg _ (by simp),
    List.find?_cons_of_pos _ (by simp)]
  rfl

lemma buildPreviews_inv {doc : Doc} {b : Url} {fin : String} {p : SeoPreviews}
    (h : buildPreviews (sectionsOf doc b) fin b = some p) :
    p.twitter.card =
      (tagValue (twitterSectionTags doc b)
        "meta[name=\"twitter:card\"]").getD "summary_large_image" ∧
    p.twitter.image =
      (match tagValue (twitterSectionTags doc b)
          "meta[name=\"twitter:image\"]" with
       | some v => some v
       | none =>
         tagValue (openGraphSectionTags doc b)
           "meta[property=\"og:image\"]") ∧
    p.openGraph.image =
      tagValue (openGraphSectionTags doc b) "meta[property=\"og:image\"]" := by
  simp only [buildPreviews] at h
  split at h
  · exact Option.noConfusion h
  · next v heq =>
    have hp := Option.some.inj h
    subst hp
    exact ⟨rfl, rfl, rfl⟩

lemma evaluateTwitterCard_nonstandard {v : String} (hv : v ≠ "")
    (h1 : toLowerStr v ≠ "summary_large_image")
    (h2 : toLowerStr v ≠ "summary") :
    evaluateTwitterCard (some v) =
      { tag := "meta[name=\"twitter:card\"]"
        label := "Twitter Card"
        value := some v
        status := .warning
        score := 60
        message := "Non-standard twitter:card value — " ++ v ++ "."
        recommendation :=
          "Use summary or summary_large_image for consistent rendering." } := by
  simp only [evaluateTwitterCard]
  rw [if_neg hv, if_pos ⟨h1, h2⟩]

lemma evaluateTwitterCard_standard {v : String} (hv : v ≠ "")
    (h : toLowerStr v = "summary_large_image" ∨ toLowerStr v = "summary") :
    evaluateTwitterCard (some v) =
      { tag := "meta[name=\"twitter:card\"]"
        label := "Twitter Card"
        value := some (toLowerStr v)
        status := .ok
        score := 85
        message := "Twitter card value looks good."
        recommendation := "Validate it with the Twitter Card Validator." } := by
  have hcond : ¬(toLowerStr v ≠ "summary_large_image" ∧
      toLowerStr v ≠ "summary") := by
    rcases h with h | h <;> simp [h]
  simp only [evaluateTwitterCard]
  rw [if_neg hv, if_neg hcond]

lemma find_canonical (doc : Doc) (b : Url) :
    ((sectionsOf doc b).flatMap (fun s => s.tags)).find?
        (fun tag => tag.label = "Canonical") =
      some (evaluateCanonical (getCanonical doc b) b) := by
  simp only [sectionsOf, mkSection, List.flatMap_cons, List.flatMap_nil,
    metaSectionTags, openGraphSectionTags, twitterSectionTags,
    List.append_nil, List.cons_append, List.nil_append]
  rw [List.find?_cons_of_neg _ (by simp), List.find?_cons_of_neg _ (by simp),
    List.find?_cons_of_neg _ (by simp), List.find?_cons_of_pos _ (by simp)]

/-! ### Claim theorems -/

/-- C1 (counterexample): in the analysis of a document with no canonical
link tag, the canonical TagResult has status warning with score 50, not
the claimed score 0. -/
theorem C1_counterexample :
    ((analyzeDocument {} "https://example.com/" "https://example.com/"
        "t").map (fun a =>
      (a.sections.flatMap (fun s => s.tags)).filterMap (fun tag =>
        if tag.label = "Canonical" then some (tag.status, tag.score)
        else none))) = some [(TagStatus.warning, 50)] ∧
      (50 : Nat) ≠ 0 :=
  ⟨by rfl, by decide⟩

/-- C1 (amended): in every analysis, the canonical TagResult is
`evaluateCanonical` applied to the pre-resolved href; when the href is
absent or does not resolve against the base it has status warning and
score 50 (the non-critical missing branch — the score-0 and the
error/score-10 branches are not what the pipeline produces), and when
the href resolves it has status ok, score 90 and stores the resolved
URL. -/
theorem C1_amended (doc : Doc) (req fin t : String) (a : SeoAnalysis)
    (h : analyzeDocument doc req fin t = some a) :
    ((a.sections.flatMap (fun s => s.tags)).find?
        (fun tag => tag.label = "Canonical")) =
      some (evaluateCanonical (getCanonical doc (baseOf req fin))
        (baseOf req fin)) ∧
    (resolveMaybeUrl doc.canonicalHref (baseOf req fin) = none →
      (evaluateCanonical (getCanonical doc (baseOf req fin))
          (baseOf req fin)).status = .warning ∧
        (evaluateCanonical (getCanonical doc (baseOf req fin))
          (baseOf req fin)).score = 50) ∧
    (∀ v, resolveMaybeUrl doc.canonicalHref (baseOf req fin) = some v →
      (evaluateCanonical (getCanonical doc (baseOf req fin))
          (baseOf req fin)).status = .ok ∧
        (evaluateCanonical (getCanonical doc (baseOf req fin))
          (baseOf req fin)).score = 90 ∧
        (evaluateCanonical (getCanonical doc (baseOf req fin))
          (baseOf req fin)).value = some v) := by
  obtain ⟨-, -, -, hsec, -, -, -, -⟩ := analyzeDocument_inv h
  refine ⟨by rw [hsec]; exact find_canonical doc (baseOf req fin), ?_, ?_⟩
  · intro hnone
    simp only [getCanonical, hnone]
    exact ⟨rfl, rfl⟩
  · intro v hv
    rcases hch : doc.canonicalHref with _ | s
    · rw [hch] at hv
      exact absurd hv (by simp [resolveMaybeUrl])
    · rw [hch] at hv
      have hok := evaluateCanonical_resolved (baseOf_valid req fin) hv
      simp only [getCanonical, hch, hv, hok]
      exact ⟨trivial, trivial, trivial⟩

/-- C1 (amended) at a concrete input: `sampleDoc` carries the relative
canonical href `/about`, which resolves, so its canonical TagResult is
ok with score 90. -/
theorem C1_amended_witness :
    ((sampleAnalysis.sections.flatMap (fun s => s.tags)).find?
        (fun tag => tag.label = "Canonical")) =
      some (evaluateCanonical
        (getCanonical sampleDoc
          (baseOf "https://example.com/" "https://example.com/"))
        (baseOf "https://example.com/" "https://example.com/")) ∧
    (evaluateCanonical
        (getCanonical sampleDoc
          (baseOf "https://example.com/" "https://example.com/"))
        (baseOf "https://example.com/" "https://example.com/")).status =
      .ok ∧
    (evaluateCanonical
        (getCanonical sampleDoc
          (baseOf "https://example.com/" "https://example.com/"))
        (baseOf "https://example.com/" "https://example.com/")).score =
      90 :=
  ⟨(C1_amended sampleDoc "https://example.com/" "https://example.com/"
      "now" sampleAnalysis (by rfl)).1,
    ((C1_amended sampleDoc "https://example.com/" "https://example.com/"
      "now" sampleAnalysis (by rfl)).2.2 "https://example.com/about"
      (by rfl)).1,
    ((C1_amended sampleDoc "https://example.com/" "https://example.com/"
      "now" sampleAnalysis (by rfl)).2.2 "https://example.com/about"
      (by rfl)).2.1⟩

lemma buildPreviews_isSome (S : List SectionResult) (fin : String) (b : Url)
    (hf : (safeUrl fin).isSome) : (buildPreviews S fin b).isSome := by
  obtain ⟨u, hu⟩ := Option.isSome_iff_exists.mp hf
  simp only [buildPreviews]
  cases hfind : S.find? (fun s => s.id = SectionId.openGraph) with
  | none =>
    simp only [hfind]
    simp [tagValue, hu]
  | some s =>
    simp only [hfind]
    cases htv : tagValue s.tags "og:url" with
    | some v => simp [htv]
    | none => simp [htv, hu]

/-- C2 (counterexample): on an empty document with a `finalUrl` that
does not parse, `analyzeDocument` does not return a report — the
`new URL(finalUrl)` fallback for the `og:url` preview throws (modelled
by `none`), despite the placeholder base having been substituted. -/
theorem C2_counterexample :
    analyzeDocument {} "nota" "url" "t" = none := by rfl

/-- C2 (amended): `analyzeDocument` returns a complete report whenever
`finalUrl` parses as a URL (per-tag problems are reported inside the
report); when neither `finalUrl` nor `requestedUrl` parses, the
placeholder base `https://example.com/` is substituted for tag
resolution — but the `og:url` preview fallback parses `finalUrl`
directly, so with an unparseable `finalUrl` and no `og:url` value the
engine still throws. -/
theorem C2_amended (doc : Doc) (req fin t : String) :
    ((safeUrl fin).isSome → (analyzeDocument doc req fin t).isSome) ∧
    (safeUrl fin = none → safeUrl req = none →
      baseOf req fin = ⟨"https", "example.com", "/"⟩) := by
  constructor
  · intro hf
    have hb := buildPreviews_isSome (sectionsOf doc (baseOf req fin)) fin
      (baseOf req fin) hf
    obtain ⟨p, hp⟩ := Option.isSome_iff_exists.mp hb
    simp only [analyzeDocument, hp]
    rfl
  · intro hf hr
    simp [baseOf, hf, hr, Option.orElse]

/-- C2 (amended) at concrete inputs: an unparseable requested URL with a
parseable final URL still yields a report, and two unparseable URLs
select the placeholder base. -/
theorem C2_amended_witness :
    (analyzeDocument {} "httpz<bad>" "https://example.com/" "t").isSome ∧
    baseOf "nota" "url" = ⟨"https", "example.com", "/"⟩ :=
  ⟨(C2_amended {} "httpz<bad>" "https://example.com/" "t").1 (by rfl),
   (C2_amended {} "nota" "url" "t").2 (by rfl) (by rfl)⟩

/-- C3: in every analysis, the overall score is the round-half-up mean
of the three section scores (both as recorded in `sectionScores` and as
recomputed over the `sections` array), and each section's score is the
round-half-up mean of its tags' scores. -/
theorem C3_scores (doc : Doc) (req fin t : String) (a : SeoAnalysis)
    (h : analyzeDocument doc req fin t = some a) :
    a.summary.overallScore =
      roundHalfUp (a.summary.sectionScores.meta +
        a.summary.sectionScores.openGraph +
        a.summary.sectionScores.twitter) 3 ∧
    a.summary.overallScore =
      roundHalfUp (a.sections.foldl (fun sum s => sum + s.score) 0)
        a.sections.length ∧
    ∀ s ∈ a.sections,
      s.score = roundHalfUp (sumScores s.tags) s.tags.length := by
  obtain ⟨-, -, -, hsec, hsum, -, -, -⟩ := analyzeDocument_inv h
  refine ⟨?_, ?_, ?_⟩
  · rw [hsum]
    simp only [overallScoreOf, sectionScoresOf, sectionsOf, mkSection,
      List.foldl_cons, List.foldl_nil, List.length_cons, List.length_nil]
    congr 1
    omega
  · rw [hsum, hsec]
    rfl
  · intro s hs
    rw [hsec] at hs
    simp only [sectionsOf, List.mem_cons, List.not_mem_nil, or_false] at hs
    rcases hs with rfl | rfl | rfl <;> rfl

/-- C3 at a concrete input. -/
theorem C3_scores_witness :
    sampleAnalysis.summary.overallScore =
      roundHalfUp (sampleAnalysis.summary.sectionScores.meta +
        sampleAnalysis.summary.sectionScores.openGraph +
        sampleAnalysis.summary.sectionScores.twitter) 3 :=
  (C3_scores sampleDoc "https://example.com/" "https://example.com/" "now"
    sampleAnalysis (by rfl)).1

/-- C4: in every analysis, the summary status is the worst (lowest
severity rank, error > warning > ok) of the section statuses, and each
section status is the worst of its tags' statuses. -/
theorem C4_statuses (doc : Doc) (req fin t : String) (a : SeoAnalysis)
    (h : analyzeDocument doc req fin t = some a) :
    a.summary.status = worstStatus (a.sections.map (fun s => s.status)) ∧
    ∀ s ∈ a.sections,
      s.status = worstStatus (s.tags.map (fun tag => tag.status)) := by
  obtain ⟨-, -, -, hsec, hsum, -, -, -⟩ := analyzeDocument_inv h
  constructor
  · rw [hsum, hsec]
    exact deriveSummaryStatus_eq _
  · intro s hs
    rw [hsec] at hs
    simp only [sectionsOf, List.mem_cons, List.not_mem_nil, or_false] at hs
    rcases hs with rfl | rfl | rfl <;> exact deriveSectionStatus_eq _

/-- C4 at a concrete input. -/
theorem C4_statuses_witness :
    sampleAnalysis.summary.status =
      worstStatus (sampleAnalysis.sections.map (fun s => s.status)) :=
  (C4_statuses sampleDoc "https://example.com/" "https://example.com/"
    "now" sampleAnalysis (by rfl)).1

/-- C5: in every analysis, the issues list is sorted by severity rank
ascending (error, rank 0, before warning, rank 1) and is a permutation
of — i.e. contains exactly, one-to-one — the non-ok tag results of the
three sections, each mapped to an issue whose id is the section id and
tag identifier joined by a dash and whose severity is the tag's
status. -/
theorem C5_issues (doc : Doc) (req fin t : String) (a : SeoAnalysis)
    (h : analyzeDocument doc req fin t = some a) :
    a.issues.Pairwise
      (fun i j => severityRank i.severity ≤ severityRank j.severity) ∧
    a.issues.Perm
      (a.sections.flatMap (fun s =>
        (s.tags.filter (fun tag => tag.status ≠ .ok)).map (fun tag =>
          ({ id := s.id.key ++ "-" ++ tag.tag
             tag := tag.label
             «section» := s.id
             severity := tag.status
             message := tag.message
             recommendation := tag.recommendation } : SeoIssue)))) ∧
    severityRank .error = 0 ∧ severityRank .warning = 1 := by
  obtain ⟨-, -, -, hsec, -, hiss, -, -⟩ := analyzeDocument_inv h
  refine ⟨?_, ?_, rfl, rfl⟩
  · rw [hiss]
    exact List.sorted_insertionSort issueLe _
  · rw [hiss, hsec]
    exact List.perm_insertionSort issueLe _

/-- C5 at a concrete input. -/
theorem C5_issues_witness :
    sampleAnalysis.issues.Pairwise
      (fun i j => severityRank i.severity ≤ severityRank j.severity) :=
  (C5_issues sampleDoc "https://example.com/" "https://example.com/" "now"
    sampleAnalysis (by rfl)).1

/-- C6: in every analysis, the missing list is exactly the labels of
tags with status error and no value, first occurrences kept (hence no
duplicates), and a malformed-but-present tag — an og:image or canonical
carrying a value — never contributes its label to the list. -/
theorem C6_missing (doc : Doc) (req fin t : String) (a : SeoAnalysis)
    (h : analyzeDocument doc req fin t = some a) :
    a.missing = dedupFirst (a.sections.flatMap (fun s =>
      (s.tags.filter (fun tag =>
        tag.status = .error ∧ tag.value = none)).map
          (fun tag => tag.label))) ∧
    a.missing.Nodup ∧
    (∀ lab ∈ a.missing, ∃ s ∈ a.sections, ∃ tag ∈ s.tags,
      tag.status = .error ∧ tag.value = none ∧ tag.label = lab) ∧
    ((a.sections.flatMap (fun s => s.tags)).any (fun tag =>
        tag.label = "OG Image" ∧ tag.value.isSome) →
      "OG Image" ∉ a.missing) ∧
    ((a.sections.flatMap (fun s => s.tags)).any (fun tag =>
        tag.label = "Canonical" ∧ tag.value.isSome) →
      "Canonical" ∉ a.missing) := by
  obtain ⟨-, -, -, hsec, -, -, hmiss, -⟩ := analyzeDocument_inv h
  refine ⟨by rw [hmiss, hsec]; rfl, by rw [hmiss]; exact dedupFirst_nodup _,
    ?_, ?_, ?_⟩
  · intro lab hlab
    rw [hmiss] at hlab
    obtain ⟨s, hs, tag, htag, h1, h2, h3⟩ := mem_missingOf hlab
    exact ⟨s, by rw [hsec]; exact hs, tag, htag, h1, h2, h3⟩
  · intro hany hmem
    rw [hmiss] at hmem
    obtain ⟨s', hs', tag', htag', he', hv', hl'⟩ := mem_missingOf hmem
    have hslot' := og_image_slot hs' htag' hl'
    rw [hsec] at hany
    simp only [List.any_eq_true, List.mem_flatMap, decide_eq_true_eq] at hany
    obtain ⟨tag, ⟨s, hs, htag⟩, hlab, hval⟩ := hany
    have hslot := og_image_slot hs htag hlab
    rw [hslot] at hval
    rw [hslot'] at hv'
    rw [hv'] at hval
    simp at hval
  · intro hany hmem
    rw [hmiss] at hmem
    obtain ⟨s', hs', tag', htag', he', hv', hl'⟩ := mem_missingOf hmem
    have hslot' := canonical_slot hs' htag' hl'
    rw [hsec] at hany
    simp only [List.any_eq_true, List.mem_flatMap, decide_eq_true_eq] at hany
    obtain ⟨tag, ⟨s, hs, htag⟩, hlab, hval⟩ := hany
    have hslot := canonical_slot hs htag hlab
    rw [hslot] at hval
    rw [hslot'] at hv'
    rw [hv'] at hval
    simp at hval

/-- C6 at a concrete input: `sampleDoc` has a present but unparseable
og:image value, whose label does not reach the missing list. -/
theorem C6_missing_witness :
    "OG Image" ∉ sampleAnalysis.missing :=
  (C6_missing sampleDoc "https://example.com/" "https://example.com/"
    "now" sampleAnalysis (by rfl)).2.2.2.1 (by rfl)

/-- C7: the analysis is deterministic — two runs on the same document
and URL pair agree on everything except possibly the `fetchedAt`
timestamp. -/
theorem C7_deterministic (doc : Doc) (req fin t1 t2 : String)
    (a1 a2 : SeoAnalysis)
    (h1 : analyzeDocument doc req fin t1 = some a1)
    (h2 : analyzeDocument doc req fin t2 = some a2) :
    a1.sections = a2.sections ∧ a1.summary = a2.summary ∧
    a1.issues = a2.issues ∧ a1.missing = a2.missing ∧
    a1.previews = a2.previews ∧ a1.url = a2.url ∧
    a1.finalUrl = a2.finalUrl := by
  obtain ⟨hu1, hf1, -, hsec1, hsum1, hiss1, hmiss1, hbp1⟩ :=
    analyzeDocument_inv h1
  obtain ⟨hu2, hf2, -, hsec2, hsum2, hiss2, hmiss2, hbp2⟩ :=
    analyzeDocument_inv h2
  exact ⟨hsec1.trans hsec2.symm, hsum1.trans hsum2.symm,
    hiss1.trans hiss2.symm, hmiss1.trans hmiss2.symm,
    Option.some.inj (hbp1.symm.trans hbp2), hu1.trans hu2.symm,
    hf1.trans hf2.symm⟩

/-- C7 at a concrete input (two clock readings). -/
theorem C7_deterministic_witness :
    sampleAnalysis.sections = sampleAnalysis2.sections ∧
    sampleAnalysis.summary = sampleAnalysis2.summary :=
  ⟨(C7_deterministic sampleDoc "https://example.com/"
      "https://example.com/" "now" "later" sampleAnalysis sampleAnalysis2
      (by rfl) (by rfl)).1,
   (C7_deterministic sampleDoc "https://example.com/"
      "https://example.com/" "now" "later" sampleAnalysis sampleAnalysis2
      (by rfl) (by rfl)).2.1⟩

/-- C8: a present title is ok with score 95 iff its length is within
30–70 and warning with score 60 otherwise; an absent title is an error
with score 0 and message "Title not found."; the concrete 5-character
title "Short" takes the warning branch with the stated message, not the
missing branch. -/
theorem C8_title :
    (∀ v : String, v ≠ "" →
      ((30 ≤ v.length ∧ v.length ≤ 70) →
        (evaluateTitle (some v)).status = .ok ∧
          (evaluateTitle (some v)).score = 95) ∧
      ((v.length < 30 ∨ 70 < v.length) →
        (evaluateTitle (some v)).status = .warning ∧
          (evaluateTitle (some v)).score = 60)) ∧
    (evaluateTitle none).status = .error ∧
    (evaluateTitle none).score = 0 ∧
    (evaluateTitle none).message = "Title not found." ∧
    evaluateTitle (some "Short") =
      { tag := "title"
        label := "Title"
        value := some "Short"
        status := .warning
        score := 60
        length := some 5
        message := "Title length is 5 characters — aim for 50–60."
        recommendation :=
          "Keep the primary query and brand within a 50–60 character window." } := by
  refine ⟨?_, rfl, rfl, rfl, by rfl⟩
  intro v hv
  constructor
  · rintro ⟨hlo, hhi⟩
    have hcond : ¬(v.length < 30 ∨ v.length > 70) := by omega
    simp only [evaluateTitle]
    rw [if_neg hv, if_neg hcond]
    exact ⟨rfl, rfl⟩
  · intro hrange
    have hcond : v.length < 30 ∨ v.length > 70 := by omega
    simp only [evaluateTitle]
    rw [if_neg hv, if_pos hcond]
    exact ⟨rfl, rfl⟩

/-- C8 at a concrete input. -/
theorem C8_title_witness :
    (evaluateTitle (some "Short")).status = .warning ∧
      (evaluateTitle (some "Short")).score = 60 :=
  (C8_title.1 "Short" (by decide)).2 (by decide)

/-- C9: the twitter preview card is the stored value of the twitter:card
TagResult — the raw extracted value for a non-standard value (itself a
warning with score 60), the lowercased value for summary and
summary_large_image — and the literal `summary_large_image` when the tag
is absent; the twitter preview image falls back to the Open Graph
preview image when the twitter:image TagResult carries no value. -/
theorem C9_twitter_preview (doc : Doc) (req fin t : String)
    (a : SeoAnalysis) (h : analyzeDocument doc req fin t = some a) :
    (normalizeText doc.twitterCard = none →
      a.previews.twitter.card = "summary_large_image") ∧
    (∀ v, normalizeText doc.twitterCard = some v →
      toLowerStr v ≠ "summary_large_image" → toLowerStr v ≠ "summary" →
      (evaluateTwitterCard (some v)).status = .warning ∧
      (evaluateTwitterCard (some v)).score = 60 ∧
      (evaluateTwitterCard (some v)).message =
        "Non-standard twitter:card value — " ++ v ++ "." ∧
      a.previews.twitter.card = v) ∧
    (∀ v, normalizeText doc.twitterCard = some v →
      (toLowerStr v = "summary_large_image" ∨ toLowerStr v = "summary") →
      a.previews.twitter.card = toLowerStr v) ∧
    ((evaluateTwitterImage
        (resolveMaybeUrl (normalizeText doc.twitterImage)
          (baseOf req fin))).value = none →
      a.previews.twitter.image = a.previews.openGraph.image) := by
  obtain ⟨-, -, -, -, -, -, -, hbp⟩ := analyzeDocument_inv h
  obtain ⟨hcard, himg, hogimg⟩ := buildPreviews_inv hbp
  refine ⟨?_, ?_, ?_, ?_⟩
  · intro hnone
    rw [hcard, tagValue_twitterCard, hnone]
    rfl
  · intro v hv h1 h2
    have he := evaluateTwitterCard_nonstandard (normalizeText_ne_empty hv)
      h1 h2
    refine ⟨by rw [he], by rw [he], by rw [he], ?_⟩
    rw [hcard, tagValue_twitterCard, hv, he]
    rfl
  · intro v hv hstd
    have he := evaluateTwitterCard_standard (normalizeText_ne_empty hv) hstd
    rw [hcard, tagValue_twitterCard, hv, he]
    rfl
  · intro hnone
    rw [himg, hogimg, tagValue_twitterImage, hnone]

/-- C9 at a concrete input: `sampleDoc` has `twitter:card` "photo". -/
theorem C9_twitter_preview_witness :
    sampleAnalysis.previews.twitter.card = "photo" :=
  ((C9_twitter_preview sampleDoc "https://example.com/"
      "https://example.com/" "now" sampleAnalysis (by rfl)).2.1 "photo"
    (by rfl) (by decide) (by decide)).2.2.2

lemma find_og_url (doc : Doc) (b : Url) :
    ((sectionsOf doc b).flatMap (fun s => s.tags)).find?
        (fun tag => tag.tag = "og:url") =
      some (evaluateOptionalUrl "og:url" "OG URL"
        (resolveMaybeUrl (normalizeText doc.ogUrl) b)) := by
  simp only [sectionsOf, mkSection, List.flatMap_cons, List.flatMap_nil,
    metaSectionTags, openGraphSectionTags, twitterSectionTags,
    List.append_nil, List.cons_append, List.nil_append]
  rw [List.find?_cons_of_neg _ (by simp), List.find?_cons_of_neg _ (by simp), List.find?_cons_of_neg _ (by simp), List.find?_cons_of_neg _ (by simp),
    List.find?_cons_of_neg _ (by simp), List.find?_cons_of_neg _ (by simp), List.find?_cons_of_neg _ (by simp), List.find?_cons_of_neg _ (by simp),
    List.find?_cons_of_pos _ (by simp)]

lemma find_twitter_image (doc : Doc) (b : Url) :
    ((sectionsOf doc b).flatMap (fun s => s.tags)).find?
        (fun tag => tag.tag = "meta[name=\"twitter:image\"]") =
      some (evaluateTwitterImage
        (resolveMaybeUrl (normalizeText doc.twitterImage) b)) := by
  simp only [sectionsOf, mkSection, List.flatMap_cons, List.flatMap_nil,
    metaSectionTags, openGraphSectionTags, twitterSectionTags,
    List.append_nil, List.cons_append, List.nil_append]
  rw [List.find?_cons_of_neg _ (by simp), List.find?_cons_of_neg _ (by simp), List.find?_cons_of_neg _ (by simp), List.find?_cons_of_neg _ (by simp),
    List.find?_cons_of_neg _ (by simp), List.find?_cons_of_neg _ (by simp), List.find?_cons_of_neg _ (by simp), List.find?_cons_of_neg _ (by simp),
    List.find?_cons_of_neg _ (by simp), List.find?_cons_of_neg _ (by simp), List.find?_cons_of_neg _ (by simp), List.find?_cons_of_neg _ (by simp),
    List.find?_cons_of_neg _ (by simp), List.find?_cons_of_pos _ (by simp)]

/-- C10: because og:url and twitter:image are resolved before their
evaluators run, a present value that does not resolve produces exactly
the absent-case TagResult — og:url: warning, score 55, message "OG URL
is missing."; twitter:image: warning, score 55 — these two tags never
carry an error status, and their labels never reach the missing
list. -/
theorem C10_preresolved (doc : Doc) (req fin t : String) (a : SeoAnalysis)
    (h : analyzeDocument doc req fin t = some a) :
    (resolveMaybeUrl (normalizeText doc.ogUrl) (baseOf req fin) = none →
      ((a.sections.flatMap (fun s => s.tags)).find?
          (fun tag => tag.tag = "og:url")) =
        some { tag := "og:url"
               label := "OG URL"
               status := .warning
               score := 55
               message := "OG URL is missing."
               recommendation :=
                 "Add the og url to keep metadata consistent." }) ∧
    (resolveMaybeUrl (normalizeText doc.twitterImage) (baseOf req fin) =
        none →
      ((a.sections.flatMap (fun s => s.tags)).find?
          (fun tag => tag.tag = "meta[name=\"twitter:image\"]")) =
        some { tag := "meta[name=\"twitter:image\"]"
               label := "Twitter Image"
               status := .warning
               score := 55
               message := "Twitter image is not specified."
               recommendation :=
                 "Provide an image 1200×630 px or 800×418 px for cards." }) ∧
    (∀ s ∈ a.sections, ∀ tag ∈ s.tags, tag.label = "OG URL" →
      tag.status ≠ .error) ∧
    (∀ s ∈ a.sections, ∀ tag ∈ s.tags, tag.label = "Twitter Image" →
      tag.status ≠ .error) ∧
    "OG URL" ∉ a.missing ∧ "Twitter Image" ∉ a.missing := by
  obtain ⟨-, -, -, hsec, -, -, hmiss, -⟩ := analyzeDocument_inv h
  refine ⟨?_, ?_, ?_, ?_, ?_, ?_⟩
  · intro hnone
    rw [hsec, find_og_url, hnone]
    rfl
  · intro hnone
    rw [hsec, find_twitter_image, hnone]
    rfl
  · intro s hs tag htag hl
    rw [hsec] at hs
    rw [og_url_slot hs htag hl]
    exact status_evaluateOptionalUrl _ _ _
  · intro s hs tag htag hl
    rw [hsec] at hs
    rw [twitter_image_slot hs htag hl]
    exact status_evaluateTwitterImage _
  · intro hmem
    rw [hmiss] at hmem
    obtain ⟨s, hs, tag, htag, he, -, hl⟩ := mem_missingOf hmem
    rw [og_url_slot hs htag hl] at he
    exact status_evaluateOptionalUrl _ _ _ he
  · intro hmem
    rw [hmiss] at hmem
    obtain ⟨s, hs, tag, htag, he, -, hl⟩ := mem_missingOf hmem
    rw [twitter_image_slot hs htag hl] at he
    exact status_evaluateTwitterImage _ he

/-- C10 at a concrete input: `sampleDoc` has the unresolvable og:url
value `http://`. -/
theorem C10_preresolved_witness :
    ((sampleAnalysis.sections.flatMap (fun s => s.tags)).find?
        (fun tag => tag.tag = "og:url")) =
      some { tag := "og:url"
             label := "OG URL"
             status := .warning
             score := 55
             message := "OG URL is missing."
             recommendation :=
               "Add the og url to keep metadata consistent." } :=
  (C10_preresolved sampleDoc "https://example.com/" "https://example.com/"
    "now" sampleAnalysis (by rfl)).1 (by rfl)

end SeoMeta
